import Mathlib

/-!
Shallow embedding of the AI Finance Assistant frontend
(src/frontend/src/App.js) for checking the specification's claims.

The client keeps the fetched expense list, the chat message list with a
loading flag, and the add-expense form as React state; the claims are
about how the event handlers transform that state and which HTTP
requests they issue.  JS numbers are modelled as exact rationals;
concrete inputs in the theorems below use values a binary double
represents exactly, so the rational model agrees with the JS semantics
at those points.
-/

namespace FinanceApp

/-- A chat message as built in App.js: a role string and content. -/
structure Message where
  role : String
  content : String
deriving DecidableEq, Repr

/-- An expense record as the frontend consumes it from GET /get-expenses.
The listing and charts read amount, category, description and date; id
is the record identity the spec's ordering rule refers to; date is the
occurred_at timestamp (milliseconds, as new Date(exp.date) compares). -/
structure Expense where
  id : Nat
  amount : ℚ
  category : String
  description : String
  date : Int
deriving DecidableEq, Repr

/-- One step of the categoryTotals accumulation in getCategoryData
(App.js line 110):
categoryTotals[exp.category] = (categoryTotals[exp.category] || 0) + exp.amount.
A JS object with string keys keeps insertion order, so it is an
association list: the first matching key is updated in place, and an
unseen key is appended at the end. -/
def upsertTotal : List (String × ℚ) → String → ℚ → List (String × ℚ)
  | [], c, a => [(c, a)]
  | (k, v) :: rest, c, a =>
      if k = c then (k, v + a) :: rest else (k, v) :: upsertTotal rest c a

/-- getCategoryData (App.js lines 107-113): fold the expense list into
per-category totals, returned as (name, value) pairs in first-seen
category order (Object.entries of the accumulating object). -/
def getCategoryData (expenses : List Expense) : List (String × ℚ) :=
  expenses.foldl (fun acc e => upsertTotal acc e.category e.amount) []

/-- Reading a category's total out of the (name, value) list; a category
never seen has total 0, matching the || 0 default of the accumulation. -/
def lookupCategory (l : List (String × ℚ)) (c : String) : ℚ :=
  ((l.find? (fun p => p.1 = c)).map (fun p => p.2)).getD 0

/-- totalExpenses (App.js line 128):
expenses.reduce((sum, exp) => sum + exp.amount, 0). -/
def totalExpenses (expenses : List Expense) : ℚ :=
  expenses.foldl (fun sum e => sum + e.amount) 0

/-- A JSON scalar in a request body. -/
inductive JsonValue where
  | str (s : String)
  | num (q : ℚ)
deriving DecidableEq, Repr

/-- An HTTP request the client issues: endpoint, method, and the JSON
body fields in the order JSON.stringify writes them (empty for a bare
GET). -/
structure BackendRequest where
  endpoint : String
  method : String
  body : List (String × JsonValue)
deriving DecidableEq, Repr

/-- The request of fetchExpenses (App.js line 37):
fetch(API_URL + "/get-expenses") — a GET with no body and no
parameters of any kind. -/
def fetchExpensesRequest : BackendRequest :=
  ⟨"/get-expenses", "GET", []⟩

/-- The add-expense form state (App.js lines 14-18): the raw input
strings of the three controlled fields. -/
structure ExpenseForm where
  amount : String
  category : String
  description : String
deriving DecidableEq, Repr

/-- Numeric value of a digit string, most significant digit first. -/
def digitsVal (cs : List Char) : ℕ :=
  cs.foldl (fun n c => 10 * n + (c.toNat - 48)) 0

/-- Split a character list at the first decimal point, if any. -/
def splitAtDot : List Char → List Char × Option (List Char)
  | [] => ([], none)
  | c :: rest =>
      if c = '.' then ([], some rest)
      else
        let p := splitAtDot rest
        (c :: p.1, p.2)

/-- parseFloat as it is applied to the number input's value (App.js
line 57), modelled for the well-formed nonnegative decimal strings a
number input yields: an integer part, optionally a dot and fraction
digits, read as an exact rational.  The double parseFloat actually
returns coincides with this value whenever the value is exactly
representable in binary (as in all concrete inputs used below). -/
def parseFloatQ (s : String) : ℚ :=
  match splitAtDot s.data with
  | (intPart, none) => (digitsVal intPart : ℚ)
  | (intPart, some fracPart) =>
      (digitsVal intPart : ℚ) + (digitsVal fracPart : ℚ) / (10 : ℚ) ^ fracPart.length

/-- The POST /add-expense request of addExpenseToBackend (App.js lines
52-62), with the body fields in source order. -/
def addExpenseRequest (form : ExpenseForm) (nowIso : String) : BackendRequest :=
  ⟨"/add-expense", "POST",
    [("user_id", JsonValue.str "user_1"),
     ("amount", JsonValue.num (parseFloatQ form.amount)),
     ("category", JsonValue.str form.category),
     ("description", JsonValue.str form.description),
     ("date", JsonValue.str nowIso)]⟩

/-- The POST /query request of sendQueryToBackend (App.js lines 89-93). -/
def queryRequest (queryText : String) : BackendRequest :=
  ⟨"/query", "POST",
    [("user_id", JsonValue.str "user_1"), ("query", JsonValue.str queryText)]⟩

/-- Whether a request body carries a user_id field. -/
def hasUserId (r : BackendRequest) : Bool :=
  r.body.any (fun f => f.1 = "user_id")

/-- The amount field of a request body, when present and numeric. -/
def requestAmount (r : BackendRequest) : Option ℚ :=
  match r.body.find? (fun f => f.1 = "amount") with
  | some (_, JsonValue.num q) => some q
  | _ => none

/-- The chat-related React state of App.js: the message list, the text
in the query input, and the loading flag (lines 12, 13, 19).  The
expense list and the add-expense form are independent pieces of state,
modelled separately. -/
structure ChatState where
  messages : List Message
  query : String
  loading : Bool
deriving DecidableEq, Repr

/-- The initial chat state: no messages, empty input, not loading. -/
def initChatState : ChatState := ⟨[], "", false⟩

/-- The fixed apology text of the catch branch (App.js line 100). -/
def errorFallbackText : String :=
  "Sorry, I encountered an error processing your request."

/-- The guard !query.trim() (App.js line 77) is true exactly when every
character of the query is whitespace, i.e. the trimmed string is empty. -/
def blankQuery (s : String) : Bool :=
  s.data.all Char.isWhitespace

/-- handleQuery (App.js lines 75-85): a blank query is rejected with no
state change and no request; otherwise the raw query text is appended
as a user turn, the input is cleared, the loading flag is set, and the
text is sent to POST /query.  Returns the new state and the request
issued, if any. -/
def handleQuery (st : ChatState) : ChatState × Option BackendRequest :=
  if blankQuery st.query then (st, none)
  else
    (⟨st.messages ++ [⟨"user", st.query⟩], "", true⟩,
      some (queryRequest st.query))

/-- Outcome of the POST /query round trip as the client observes it:
either the parsed body's response string, or a thrown error — network
failure, timeout, or a reply that fails to parse. -/
inductive QueryOutcome where
  | success (response : String)
  | failure
deriving DecidableEq, Repr

/-- sendQueryToBackend's effect on the chat state (App.js lines
87-105): on success the response string is appended as an assistant
turn (and the expense list is refetched — separate state); on any
thrown error the fixed apology is appended as an assistant turn.  The
finally branch clears the loading flag in both cases. -/
def sendQueryToBackend (st : ChatState) (outcome : QueryOutcome) : ChatState :=
  match outcome with
  | QueryOutcome.success r =>
      ⟨st.messages ++ [⟨"assistant", r⟩], st.query, false⟩
  | QueryOutcome.failure =>
      ⟨st.messages ++ [⟨"assistant", errorFallbackText⟩], st.query, false⟩

/-- One user-interface or network event touching the chat state.
Submission requires loading = false because the input and the send
button carry disabled={loading} and the Enter handler checks !loading
(App.js lines 211-219); the /query continuation runs only while its own
request is in flight, i.e. while loading is still true, since nothing
else clears the flag. -/
inductive ChatStep : ChatState → ChatState → Prop where
  | typeQuery (st : ChatState) (q : String) :
      ChatStep st { st with query := q }
  | submit (st : ChatState) :
      st.loading = false → ChatStep st (handleQuery st).1
  | respond (st : ChatState) (outcome : QueryOutcome) :
      st.loading = true → ChatStep st (sendQueryToBackend st outcome)

/-- Chat states reachable from the initial state. -/
def ChatReachable (st : ChatState) : Prop :=
  Relation.ReflTransGen ChatStep initChatState st

/-- The alternating role pattern of length n: user at even positions,
assistant at odd positions. -/
def altRoles : Nat → List String
  | 0 => []
  | n + 1 => altRoles n ++ [if n % 2 = 0 then "user" else "assistant"]

/-- The Recent Expenses table row order (App.js line 297):
expenses.slice().reverse() — the fetched list reversed, with no sort
applied. -/
def recentExpensesDisplay (expenses : List Expense) : List Expense :=
  expenses.reverse

/-- Strict chronological order between expenses: earlier date first,
ties broken by smaller id first. -/
def expBefore (a b : Expense) : Prop :=
  a.date < b.date ∨ (a.date = b.date ∧ a.id < b.id)

/-- The display order the spec asks about: date descending, ties broken
by id (here: larger id first). -/
def expAfter (a b : Expense) : Prop :=
  expBefore b a

/-- JS Number.prototype.toFixed(2): the value rounded to two decimal
places and printed with exactly two fraction digits.  Rounding is
modelled as floor(100 q + 1/2), computed on the exact rational; this
agrees with JS on the nonnegative amounts the app displays. -/
def toFixed2 (q : ℚ) : String :=
  let cents : ℤ := Int.fdiv (q.num * 200 + q.den) (q.den * 2)
  let sign := if cents < 0 then "-" else ""
  let n := cents.natAbs
  sign ++ toString (n / 100) ++ "." ++
    (if n % 100 < 10 then "0" else "") ++ toString (n % 100)

/-- The Avg/Transaction stat (App.js line 334):
expenses.length > 0 ? (totalExpenses / expenses.length).toFixed(2) : '0.00'. -/
def avgDisplay (expenses : List Expense) : String :=
  if 0 < expenses.length then
    toFixed2 (totalExpenses expenses / expenses.length)
  else "0.00"

/-- The rational value behind the Avg/Transaction stat, defined through
the same guard: no division is performed on an empty list. -/
def avgPerTransaction (expenses : List Expense) : ℚ :=
  if 0 < expenses.length then totalExpenses expenses / expenses.length
  else 0

/-- Outcome of the POST /add-expense round trip as the client observes
it: the fetch resolves with an ok status, resolves with a non-ok
status, or throws. -/
inductive AddOutcome where
  | ok
  | httpError
  | networkError
deriving DecidableEq, Repr

/-- The cleared form written on success (App.js line 65). -/
def emptyForm : ExpenseForm := ⟨"", "", ""⟩

/-- addExpenseToBackend's effect on the form state (App.js lines
50-73): the form is cleared inside if (response.ok) only; a non-ok
response falls through with the form untouched, and a thrown error
reaches the catch branch (an alert) that also leaves the form
untouched. -/
def addExpenseToBackend (form : ExpenseForm) (outcome : AddOutcome) : ExpenseForm :=
  match outcome with
  | AddOutcome.ok => emptyForm
  | AddOutcome.httpError => form
  | AddOutcome.networkError => form

/-- Sample expense, fetched first, with the later date (for C6). -/
def expA : Expense := ⟨1, 200, "Food", "groceries", 5⟩

/-- Sample expense, fetched second, with the earlier date (for C6). -/
def expB : Expense := ⟨2, 80, "Transport", "bus", 3⟩

/-- Sample expenses for the aggregation scenarios. -/
def expFood1 : Expense := ⟨1, 200, "Food", "groceries", 20240502⟩

/-- Second Food expense of the aggregation scenario. -/
def expFood2 : Expense := ⟨2, 150, "Food", "restaurant", 20240520⟩

/-- Transport expense of the aggregation scenario. -/
def expTransport : Expense := ⟨3, 80, "Transport", "bus", 20240510⟩

/-! ## Helper lemmas -/

theorem lookupCategory_upsert_self (acc : List (String × ℚ)) (c : String) (a : ℚ) :
    lookupCategory (upsertTotal acc c a) c = lookupCategory acc c + a := by
  induction acc with
  | nil => simp [upsertTotal, lookupCategory]
  | cons p rest ih =>
    obtain ⟨k, v⟩ := p
    by_cases hk : k = c
    · subst hk
      simp [upsertTotal, lookupCategory, List.find?]
    · simp only [upsertTotal, if_neg hk]
      simpa [lookupCategory, List.find?, hk] using ih

theorem lookupCategory_upsert_other (acc : List (String × ℚ)) (c c' : String) (a : ℚ)
    (h : c ≠ c') :
    lookupCategory (upsertTotal acc c a) c' = lookupCategory acc c' := by
  induction acc with
  | nil => simp [upsertTotal, lookupCategory, List.find?, h]
  | cons p rest ih =>
    obtain ⟨k, v⟩ := p
    by_cases hk : k = c
    · subst hk
      simp [upsertTotal, lookupCategory, List.find?, h]
    · simp only [upsertTotal, if_neg hk]
      by_cases hk' : k = c'
      · subst hk'
        simp [lookupCategory, List.find?]
      · simpa [lookupCategory, List.find?, hk'] using ih

theorem lookupCategory_foldl (es : List Expense) (acc : List (String × ℚ)) (c : String) :
    lookupCategory (es.foldl (fun acc e => upsertTotal acc e.category e.amount) acc) c =
      lookupCategory acc c + ((es.filter (fun e => e.category = c)).map Expense.amount).sum := by
  induction es generalizing acc with
  | nil => simp
  | cons e rest ih =>
    rw [List.foldl_cons, ih]
    by_cases hc : e.category = c
    · rw [hc, lookupCategory_upsert_self]
      simp [List.filter_cons, hc]
      ring
    · rw [lookupCategory_upsert_other _ _ _ _ hc]
      simp [List.filter_cons, hc]

theorem totalExpenses_foldl (es : List Expense) (init : ℚ) :
    es.foldl (fun sum e => sum + e.amount) init = init + (es.map Expense.amount).sum := by
  induction es generalizing init with
  | nil => simp
  | cons e rest ih => rw [List.foldl_cons, ih]; simp; ring

theorem totalExpenses_eq_sum (es : List Expense) :
    totalExpenses es = (es.map Expense.amount).sum := by
  simpa using totalExpenses_foldl es 0

theorem handleQuery_of_blank {st : ChatState} (h : blankQuery st.query = true) :
    handleQuery st = (st, none) := by
  simp [handleQuery, h]

theorem handleQuery_of_not_blank {st : ChatState} (h : blankQuery st.query = false) :
    handleQuery st =
      (⟨st.messages ++ [⟨"user", st.query⟩], "", true⟩,
        some (queryRequest st.query)) := by
  simp [handleQuery, h]

theorem handleQuery_fst_of_blank {st : ChatState} (h : blankQuery st.query = true) :
    (handleQuery st).1 = st := by
  rw [handleQuery_of_blank h]

theorem handleQuery_fst_of_not_blank {st : ChatState} (h : blankQuery st.query = false) :
    (handleQuery st).1 = ⟨st.messages ++ [⟨"user", st.query⟩], "", true⟩ := by
  rw [handleQuery_of_not_blank h]

theorem chatStep_messages_extend {st st' : ChatState} (h : ChatStep st st') :
    ∃ tail, st'.messages = st.messages ++ tail := by
  cases h with
  | typeQuery q => exact ⟨[], (List.append_nil _).symm⟩
  | submit hl =>
    cases hb : blankQuery st.query with
    | true =>
      rw [handleQuery_fst_of_blank hb]
      exact ⟨[], (List.append_nil _).symm⟩
    | false =>
      rw [handleQuery_fst_of_not_blank hb]
      exact ⟨[⟨"user", st.query⟩], rfl⟩
  | respond outcome hl =>
    cases outcome with
    | success r => exact ⟨[⟨"assistant", r⟩], rfl⟩
    | failure => exact ⟨[⟨"assistant", errorFallbackText⟩], rfl⟩

theorem chatStep_invariant {st st' : ChatState} (hstep : ChatStep st st')
    (hinv : st.messages.map Message.role = altRoles st.messages.length ∧
      (st.loading = true ↔ st.messages.length % 2 = 1)) :
    st'.messages.map Message.role = altRoles st'.messages.length ∧
      (st'.loading = true ↔ st'.messages.length % 2 = 1) := by
  obtain ⟨hroles, hload⟩ := hinv
  cases hstep with
  | typeQuery q => exact ⟨hroles, hload⟩
  | submit hl =>
    cases hb : blankQuery st.query with
    | true =>
      rw [handleQuery_fst_of_blank hb]
      exact ⟨hroles, hload⟩
    | false =>
      rw [handleQuery_fst_of_not_blank hb]
      have hn : st.messages.length % 2 = 0 := by
        rcases Nat.mod_two_eq_zero_or_one st.messages.length with h0 | h1
        · exact h0
        · rw [hl] at hload
          exact absurd (hload.mpr h1) (by simp)
      constructor
      · show (st.messages ++ [(⟨"user", st.query⟩ : Message)]).map Message.role =
          altRoles (st.messages ++ [(⟨"user", st.query⟩ : Message)]).length
        simp only [List.map_append, List.map_cons, List.map_nil, List.length_append,
          List.length_cons, List.length_nil, Nat.zero_add, altRoles, hn, hroles]
        simp
      · show (true = true) ↔
          (st.messages ++ [(⟨"user", st.query⟩ : Message)]).length % 2 = 1
        simp only [List.length_append, List.length_cons, List.length_nil, Nat.zero_add]
        constructor
        · intro _; omega
        · intro _; trivial
  | respond outcome hl =>
    have hn : st.messages.length % 2 = 1 := hload.mp hl
    have hshape : ∃ c : String,
        (sendQueryToBackend st outcome).messages = st.messages ++ [⟨"assistant", c⟩] ∧
          (sendQueryToBackend st outcome).loading = false := by
      cases outcome with
      | success r => exact ⟨r, rfl, rfl⟩
      | failure => exact ⟨errorFallbackText, rfl, rfl⟩
    obtain ⟨c, hc, hload'⟩ := hshape
    constructor
    · rw [hc]
      simp only [List.map_append, List.map_cons, List.map_nil, List.length_append,
        List.length_cons, List.length_nil, Nat.zero_add, altRoles, hn, hroles]
      simp
    · rw [hc, hload']
      simp only [List.length_append, List.length_cons, List.length_nil, Nat.zero_add]
      constructor
      · intro h; exact absurd h (by simp)
      · intro h; exact absurd hn (by omega)

/-! ## Claims -/

/-- C1, counterexample: the expense-listing request the client issues,
fetch(API_URL + "/get-expenses"), carries no user_id field at all, so
not every retrieval request is scoped by the requesting user's id. -/
theorem C1_counterexample : hasUserId fetchExpensesRequest = false := rfl

/-- C1, amended: expense creation and the natural-language query carry
a user_id field (the hard-coded user_1), but the expense listing is a
bare GET with no tenant scope of any kind. -/
theorem C1_user_id_scope (form : ExpenseForm) (nowIso queryText : String) :
    hasUserId (addExpenseRequest form nowIso) = true ∧
      hasUserId (queryRequest queryText) = true ∧
      hasUserId fetchExpensesRequest = false :=
  ⟨rfl, rfl, rfl⟩

/-- C2: whatever the outcome of the /query round trip, exactly one
assistant message is appended after the existing turns and the loading
flag is cleared; when the call throws (network error, timeout,
unparseable reply) the appended content is the fixed apology text, so
the user always receives a response turn and no error escapes. -/
theorem C2_query_always_answered (st : ChatState) (outcome : QueryOutcome) :
    ∃ m : Message,
      sendQueryToBackend st outcome =
        { st with messages := st.messages ++ [m], loading := false } ∧
      m.role = "assistant" ∧
      (outcome = QueryOutcome.failure → m.content = errorFallbackText) := by
  cases outcome with
  | success r =>
    exact ⟨⟨"assistant", r⟩, rfl, rfl, fun h => QueryOutcome.noConfusion h⟩
  | failure =>
    exact ⟨⟨"assistant", errorFallbackText⟩, rfl, rfl, fun _ => rfl⟩

/-- C2, witness: the failed round trip after the user turn "hi" appends
the apology as an assistant turn and clears loading. -/
theorem C2_query_always_answered_witness :
    ∃ m : Message,
      sendQueryToBackend ⟨[⟨"user", "hi"⟩], "", true⟩ QueryOutcome.failure =
        ⟨[⟨"user", "hi"⟩] ++ [m], "", false⟩ ∧
      m.role = "assistant" ∧
      (QueryOutcome.failure = QueryOutcome.failure → m.content = errorFallbackText) :=
  C2_query_always_answered ⟨[⟨"user", "hi"⟩], "", true⟩ QueryOutcome.failure

/-- C3: the per-category total getCategoryData computes for a category
c is the sum of the amounts of exactly the expenses whose category is
c; totalExpenses is the sum of all amounts; and under its guard the
average per transaction is that total divided by the count. -/
theorem C3_aggregation_correct (es : List Expense) (c : String) :
    lookupCategory (getCategoryData es) c =
        ((es.filter (fun e => e.category = c)).map Expense.amount).sum ∧
      totalExpenses es = (es.map Expense.amount).sum ∧
      (0 < es.length → avgPerTransaction es = totalExpenses es / es.length) := by
  refine ⟨?_, totalExpenses_eq_sum es, ?_⟩
  · simpa [getCategoryData, lookupCategory] using lookupCategory_foldl es [] c
  · intro h
    rw [avgPerTransaction, if_pos h]

/-- C3, witness: the spec's scenario list (Food 200, Food 150,
Transport 80) — the Food total is the sum over the two Food rows, the
grand total sums all three amounts, and the average is total over 3. -/
theorem C3_aggregation_correct_witness :
    lookupCategory (getCategoryData [expFood1, expFood2, expTransport]) "Food" =
        (([expFood1, expFood2, expTransport].filter
            (fun e => e.category = "Food")).map Expense.amount).sum ∧
      totalExpenses [expFood1, expFood2, expTransport] =
        ([expFood1, expFood2, expTransport].map Expense.amount).sum ∧
      avgPerTransaction [expFood1, expFood2, expTransport] =
        totalExpenses [expFood1, expFood2, expTransport] /
          ([expFood1, expFood2, expTransport] : List Expense).length :=
  ⟨(C3_aggregation_correct [expFood1, expFood2, expTransport] "Food").1,
   (C3_aggregation_correct [expFood1, expFood2, expTransport] "Food").2.1,
   (C3_aggregation_correct [expFood1, expFood2, expTransport] "Food").2.2 (by decide)⟩

/-- C4: along any execution of the chat state machine, the message log
only ever grows at the end — the message list of any later state is the
earlier state's list with new turns appended, so recorded turns are
never rewritten, reordered or removed. -/
theorem C4_conversation_append_only (st st' : ChatState)
    (h : Relation.ReflTransGen ChatStep st st') :
    ∃ tail, st'.messages = st.messages ++ tail := by
  induction h with
  | refl => exact ⟨[], (List.append_nil _).symm⟩
  | tail _ hstep ih =>
    obtain ⟨t1, ht1⟩ := ih
    obtain ⟨t2, ht2⟩ := chatStep_messages_extend hstep
    exact ⟨t1 ++ t2, by rw [ht2, ht1, List.append_assoc]⟩

/-- C4, witness: submitting the question "hi" from an idle state
extends the (empty) message log rather than replacing it. -/
theorem C4_conversation_append_only_witness :
    ∃ tail, (handleQuery ⟨[], "hi", false⟩).1.messages =
      (⟨[], "hi", false⟩ : ChatState).messages ++ tail :=
  C4_conversation_append_only ⟨[], "hi", false⟩ _
    (Relation.ReflTransGen.single (ChatStep.submit ⟨[], "hi", false⟩ rfl))

/-- C5, counterexample: the amount sent by add-expense for the typed
value 10.50 is the rational 21/2 — parseFloat keeps the value in the
main currency unit, and 21/2 is not an integer, so amounts are not
currency-scaled integers. -/
theorem C5_counterexample :
    requestAmount (addExpenseRequest ⟨"10.50", "Food", "lunch"⟩
        "2026-01-01T00:00:00.000Z") = some ((21 : ℚ) / 2) ∧
      ¬ ∃ n : ℤ, ((21 : ℚ) / 2) = (n : ℚ) := by
  constructor
  · have h1 : parseFloatQ "10.50" =
        (digitsVal ['1', '0'] : ℚ) + (digitsVal ['5', '0'] : ℚ) / (10 : ℚ) ^ 2 := rfl
    have h2 : requestAmount (addExpenseRequest ⟨"10.50", "Food", "lunch"⟩
        "2026-01-01T00:00:00.000Z") = some (parseFloatQ "10.50") := rfl
    have e1 : digitsVal ['1', '0'] = 10 := by decide
    have e2 : digitsVal ['5', '0'] = 50 := by decide
    rw [h2, h1, e1, e2]
    norm_num
  · rintro ⟨n, hn⟩
    have h2 : (21 : ℚ) = 2 * (n : ℚ) := by
      field_simp at hn
      linarith
    have h3 : (21 : ℤ) = 2 * n := by exact_mod_cast h2
    omega

/-- C5, amended: amounts are decimal rationals in the main currency
unit — the add-expense request carries parseFloat of the raw input with
no rescaling to minor units, and the aggregations sum the fetched
amounts directly in that same single unit. -/
theorem C5_amounts_decimal (form : ExpenseForm) (nowIso : String) (es : List Expense) :
    requestAmount (addExpenseRequest form nowIso) = some (parseFloatQ form.amount) ∧
      totalExpenses es = (es.map Expense.amount).sum :=
  ⟨rfl, totalExpenses_eq_sum es⟩

/-- C6, counterexample: for the fetched list [expA, expB] whose dates
are 5 then 3, the Recent Expenses table shows the reversal [expB, expA]
with dates 3 then 5 — not ordered by date descending. -/
theorem C6_counterexample :
    ¬ List.Chain' expAfter (recentExpensesDisplay [expA, expB]) := by
  intro h
  rw [show recentExpensesDisplay [expA, expB] = [expB, expA] from rfl,
    List.chain'_cons] at h
  have h1 : expBefore expA expB := h.1
  simp only [expBefore, expA, expB] at h1
  norm_num at h1

/-- C6, amended: for every fetched list the table shows exactly the
reversal of that list, with no sorting applied; and the display is
ordered by date descending (ties broken by id, larger first) exactly
when — if and only if — the backend returns the list in ascending
(date, id) order. -/
theorem C6_display_reversed (es : List Expense) :
    recentExpensesDisplay es = es.reverse ∧
      (List.Chain' expAfter (recentExpensesDisplay es) ↔
        List.Chain' expBefore es) := by
  refine ⟨rfl, ?_⟩
  rw [recentExpensesDisplay, List.chain'_reverse]
  exact Iff.rfl

/-- C7, counterexample: a whitespace-only question is silently dropped:
handleQuery returns the state unchanged — no user turn is recorded, no
request of any kind is sent to the backend, and consequently no
response turn is ever produced for it. -/
theorem C7_counterexample :
    handleQuery ⟨[], "   ", false⟩ = (⟨[], "   ", false⟩, none) := rfl

/-- C7, amended: a question whose trimmed text is empty is rejected
client-side: handleQuery leaves the state unchanged and sends nothing;
only a question with some non-whitespace character appends a user turn
and sends the raw text to POST /query. -/
theorem C7_blank_query_dropped (st : ChatState) :
    (blankQuery st.query = true → handleQuery st = (st, none)) ∧
      (blankQuery st.query = false →
        handleQuery st =
          (⟨st.messages ++ [⟨"user", st.query⟩], "", true⟩,
            some (queryRequest st.query))) :=
  ⟨handleQuery_of_blank, handleQuery_of_not_blank⟩

/-- C7, witness: the blank query " " is dropped while "hello" is
submitted and sent. -/
theorem C7_blank_query_dropped_witness :
    handleQuery ⟨[], " ", false⟩ = (⟨[], " ", false⟩, none) ∧
      handleQuery ⟨[], "hello", false⟩ =
        (⟨[⟨"user", "hello"⟩], "", true⟩, some (queryRequest "hello")) :=
  ⟨(C7_blank_query_dropped ⟨[], " ", false⟩).1 rfl,
   (C7_blank_query_dropped ⟨[], "hello", false⟩).2 rfl⟩

/-- C8: in every reachable chat state the roles alternate user,
assistant, user, ... (each assistant turn sits directly after its own
user turn, in submission order), and a query is in flight exactly when
the log ends in a not-yet-answered user turn; submitting while loading
is impossible by the guard of ChatStep.submit, which models the
disabled={loading} controls. -/
theorem C8_messages_alternate (st : ChatState) (h : ChatReachable st) :
    st.messages.map Message.role = altRoles st.messages.length ∧
      (st.loading = true ↔ st.messages.length % 2 = 1) := by
  induction h with
  | refl => exact ⟨rfl, by simp [initChatState]⟩
  | tail _ hstep ih => exact chatStep_invariant hstep ih

/-- C8, witness: after typing "hi", submitting it, and receiving the
answer "ok", the reachable state's roles are the alternating pattern
user, assistant and loading is off. -/
theorem C8_messages_alternate_witness :
    (sendQueryToBackend (handleQuery ⟨[], "hi", false⟩).1
          (QueryOutcome.success "ok")).messages.map Message.role =
        altRoles (sendQueryToBackend (handleQuery ⟨[], "hi", false⟩).1
          (QueryOutcome.success "ok")).messages.length ∧
      ((sendQueryToBackend (handleQuery ⟨[], "hi", false⟩).1
            (QueryOutcome.success "ok")).loading = true ↔
        (sendQueryToBackend (handleQuery ⟨[], "hi", false⟩).1
          (QueryOutcome.success "ok")).messages.length % 2 = 1) :=
  C8_messages_alternate _
    (Relation.ReflTransGen.tail
      (Relation.ReflTransGen.tail
        (Relation.ReflTransGen.single (ChatStep.typeQuery initChatState "hi"))
        (ChatStep.submit ⟨[], "hi", false⟩ rfl))
      (ChatStep.respond (handleQuery ⟨[], "hi", false⟩).1
        (QueryOutcome.success "ok") rfl))

/-- C9: the Avg/Transaction stat is the literal string 0.00 for an
empty expense list — the guard short-circuits before any division — and
for a non-empty list it displays the total divided by the count, a
value whose product with the count recovers the sum of all amounts. -/
theorem C9_average_guarded :
    avgDisplay [] = "0.00" ∧
      ∀ es : List Expense, 0 < es.length →
        avgDisplay es = toFixed2 (avgPerTransaction es) ∧
          avgPerTransaction es * es.length = (es.map Expense.amount).sum := by
  refine ⟨rfl, fun es h => ⟨?_, ?_⟩⟩
  · rw [avgDisplay, if_pos h, avgPerTransaction, if_pos h]
  · have hlen : (es.length : ℚ) ≠ 0 :=
      Nat.cast_ne_zero.mpr (Nat.pos_iff_ne_zero.mp h)
    rw [avgPerTransaction, if_pos h, div_mul_cancel₀ _ hlen, totalExpenses_eq_sum]

/-- C9, witness: the empty list displays 0.00, and for the two-element
scenario list the displayed value is the guarded quotient, which times
the count gives back the sum of amounts. -/
theorem C9_average_guarded_witness :
    avgDisplay [] = "0.00" ∧
      (avgDisplay [expA, expB] = toFixed2 (avgPerTransaction [expA, expB]) ∧
        avgPerTransaction [expA, expB] * ([expA, expB] : List Expense).length =
          ([expA, expB].map Expense.amount).sum) :=
  ⟨C9_average_guarded.1, C9_average_guarded.2 [expA, expB] (by decide)⟩

/-- C10: the add-expense form is cleared exactly when the backend
responds ok; a non-ok response or a thrown network error leaves every
typed field unchanged. -/
theorem C10_form_reset_only_on_success (form : ExpenseForm) (outcome : AddOutcome) :
    (outcome = AddOutcome.ok → addExpenseToBackend form outcome = emptyForm) ∧
      (outcome ≠ AddOutcome.ok → addExpenseToBackend form outcome = form) := by
  cases outcome <;> simp [addExpenseToBackend]

/-- C10, witness: a concrete filled-in form is cleared on ok and kept
verbatim on a network error. -/
theorem C10_form_reset_only_on_success_witness :
    addExpenseToBackend ⟨"12", "Food", "lunch"⟩ AddOutcome.ok = emptyForm ∧
      addExpenseToBackend ⟨"12", "Food", "lunch"⟩ AddOutcome.networkError =
        ⟨"12", "Food", "lunch"⟩ :=
  ⟨(C10_form_reset_only_on_success ⟨"12", "Food", "lunch"⟩ AddOutcome.ok).1 rfl,
   (C10_form_reset_only_on_success ⟨"12", "Food", "lunch"⟩ AddOutcome.networkError).2
     (by decide)⟩

end FinanceApp
